import Mathlib

/-!
# Verification of `keepercommander/commands/remote.py`

A shallow embedding of the remote command-and-control client: the
authorization-token construction (`get_auth_token`), the websocket receive
loop (`get_ws_response`), and the command dispatch (`RemoteCommand.execute`).
Python/JSON values are modelled by the inductive `PyVal`; Python dicts are
insertion-ordered association lists (parsed JSON objects have unique keys);
machine-independent `Nat`/`Int` arithmetic is used throughout, with explicit
`% 2^32` where the SHA-256 word arithmetic wraps.  External collaborators
(the credential store, the websocket transport, the HTTP client, `jwcrypto`
signing) enter as explicit inputs; observable actions are collected into
effect traces.
-/

set_option autoImplicit false
set_option maxRecDepth 100000

namespace Commander

/-- Python/JSON values as they occur in this module: the results of
`json.loads`, record field values, and token claim values. -/
inductive PyVal where
  | none
  | bool (b : Bool)
  | int (n : Int)
  | str (s : String)
  | list (vs : List PyVal)
  | dict (kvs : List (String × PyVal))
  deriving Repr

/-- First value bound to a key, `d[k]` / `d.get(k)`.  Parsed JSON objects
have unique keys, so first-match lookup is Python dict lookup. -/
def dictGet (kvs : List (String × PyVal)) (k : String) : Option PyVal :=
  match kvs with
  | [] => Option.none
  | (k0, v0) :: rest => if k0 = k then some v0 else dictGet rest k

/-- Python `d.get(k, dflt)`. -/
def dictGetD (kvs : List (String × PyVal)) (k : String) (dflt : PyVal) : PyVal :=
  (dictGet kvs k).getD dflt

/-- Python `k in d`. -/
def dictContains (kvs : List (String × PyVal)) (k : String) : Bool :=
  match kvs with
  | [] => false
  | (k0, _) :: rest => k0 = k || dictContains rest k

/-- Python `d[k] = v`: update in place when present, append when absent. -/
def dictSet (kvs : List (String × PyVal)) (k : String) (v : PyVal) :
    List (String × PyVal) :=
  match kvs with
  | [] => [(k, v)]
  | (k0, v0) :: rest => if k0 = k then (k0, v) :: rest else (k0, v0) :: dictSet rest k v

/-- Python `d.pop(k, dflt)`: the popped value and the dict without the key.
On unique-key dicts (all dicts here come from parsed JSON or literal
construction) removing every pair with the key is exactly Python `pop`. -/
def dictPopD (kvs : List (String × PyVal)) (k : String) (dflt : PyVal) :
    PyVal × List (String × PyVal) :=
  ((dictGet kvs k).getD dflt, kvs.filter (fun kv => kv.1 != k))

/-- Python truthiness of a value, as used by `if message:` etc. -/
def pyTruthy : PyVal → Bool
  | .none => false
  | .bool b => b
  | .int n => n != 0
  | .str s => !s.isEmpty
  | .list vs => !vs.isEmpty
  | .dict kvs => !kvs.isEmpty

mutual

/-- Python `repr` of a value (the rendering f-strings use inside containers). -/
def pyRepr : PyVal → String
  | .none => "None"
  | .bool true => "True"
  | .bool false => "False"
  | .int n => toString n
  | .str s => "\x27" ++ s ++ "\x27"
  | .list vs => "[" ++ String.intercalate ", " (pyReprList vs) ++ "]"
  | .dict kvs => "\x7b" ++ String.intercalate ", " (pyReprDict kvs) ++ "\x7d"

/-- `repr` of the elements of a list. -/
def pyReprList : List PyVal → List String
  | [] => []
  | v :: vs => pyRepr v :: pyReprList vs

/-- `repr` of the entries of a dict. -/
def pyReprDict : List (String × PyVal) → List String
  | [] => []
  | (k, v) :: kvs => ("\x27" ++ k ++ "\x27: " ++ pyRepr v) :: pyReprDict kvs

end

/-- Python `str` of a value (top level of an f-string interpolation). -/
def pyStr : PyVal → String
  | .str s => s
  | v => pyRepr v

/-- JSON string escaping (quote and backslash; the frames modelled here
contain no control characters). -/
def jsonEscape (s : String) : String :=
  String.join (s.toList.map (fun c =>
    if c = '\\' then "\\\\" else if c = '"' then "\\\"" else String.singleton c))

mutual

/-- `json.dumps` with its default separators `", "` and `": "`. -/
def jsonDumps : PyVal → String
  | .none => "null"
  | .bool true => "true"
  | .bool false => "false"
  | .int n => toString n
  | .str s => "\"" ++ jsonEscape s ++ "\""
  | .list vs => "[" ++ String.intercalate ", " (jsonDumpsList vs) ++ "]"
  | .dict kvs => "\x7b" ++ String.intercalate ", " (jsonDumpsDict kvs) ++ "\x7d"

/-- JSON rendering of the elements of a list. -/
def jsonDumpsList : List PyVal → List String
  | [] => []
  | v :: vs => jsonDumps v :: jsonDumpsList vs

/-- JSON rendering of the entries of a dict. -/
def jsonDumpsDict : List (String × PyVal) → List String
  | [] => []
  | (k, v) :: kvs => ("\"" ++ jsonEscape k ++ "\": " ++ jsonDumps v) :: jsonDumpsDict kvs

end

/-- The string items of a Python list, when every element is a `str`
(otherwise `str.join` raises `TypeError`). -/
def strItems : List PyVal → Option (List String)
  | [] => some []
  | .str s :: vs => (strItems vs).map (fun ss => s :: ss)
  | _ :: _ => Option.none

/-- Python `sep.join(x)`: joins a list of strings, the characters of a
string, or the keys of a dict; anything else raises `TypeError`. -/
def pyJoin (sep : String) : PyVal → Except Unit String
  | .str s => .ok (String.intercalate sep (s.toList.map String.singleton))
  | .list vs =>
    match strItems vs with
    | some ss => .ok (String.intercalate sep ss)
    | Option.none => .error ()
  | .dict kvs => .ok (String.intercalate sep (kvs.map Prod.fst))
  | _ => .error ()

/-! ## SHA-256 (`hashlib.sha256(...).hexdigest()`)

Word arithmetic over `Nat` with explicit reduction modulo `2^32`. -/

/-- Reduce to a 32-bit word. -/
def w32 (n : Nat) : Nat := n % 4294967296

/-- Right rotation of a 32-bit word. -/
def rotr32 (x n : Nat) : Nat := w32 ((x >>> n) ||| (x <<< (32 - n)))

/-- Bitwise complement of a 32-bit word. -/
def not32 (x : Nat) : Nat := 4294967295 - w32 x

/-- SHA-256 round constants. -/
def sha256K : List Nat :=
  [1116352408, 1899447441, 3049323471, 3921009573, 961987163, 1508970993,
   2453635748, 2870763221, 3624381080, 310598401, 607225278, 1426881987,
   1925078388, 2162078206, 2614888103, 3248222580, 3835390401, 4022224774,
   264347078, 604807628, 770255983, 1249150122, 1555081692, 1996064986,
   2554220882, 2821834349, 2952996808, 3210313671, 3336571891, 3584528711,
   113926993, 338241895, 666307205, 773529912, 1294757372, 1396182291,
   1695183700, 1986661051, 2177026350, 2456956037, 2730485921, 2820302411,
   3259730800, 3345764771, 3516065817, 3600352804, 4094571909, 275423344,
   430227734, 506948616, 659060556, 883997877, 958139571, 1322822218,
   1537002063, 1747873779, 1955562222, 2024104815, 2227730452, 2361852424,
   2428436474, 2756734187, 3204031479, 3329325298]

/-- SHA-256 initial hash state. -/
def sha256H0 : List Nat :=
  [1779033703, 3144134277, 1013904242, 2773480762, 1359893119, 2600822924,
   528734635, 1541459225]

/-- Big-endian byte encoding of a value into `k` bytes
(Python `v.to_bytes(k, 'big')`, for `v < 256^k`). -/
def natToBytesBE : Nat → Nat → List Nat
  | 0, _ => []
  | k + 1, v => natToBytesBE k (v / 256) ++ [v % 256]

/-- Group a byte list into big-endian 32-bit words, `fuel` words at most. -/
def toWordsBE : Nat → List Nat → List Nat
  | 0, _ => []
  | _ + 1, [] => []
  | f + 1, b0 :: b1 :: b2 :: b3 :: rest =>
    (b0 * 16777216 + b1 * 65536 + b2 * 256 + b3) :: toWordsBE f rest
  | _ + 1, _ => []

/-- Extend the 16-word message schedule to 64 words (`fuel` = 48). -/
def extendW : Nat → List Nat → List Nat
  | 0, ws => ws
  | f + 1, ws =>
    let i := ws.length
    let s0 := rotr32 (ws.getD (i - 15) 0) 7 ^^^ rotr32 (ws.getD (i - 15) 0) 18 ^^^
      (ws.getD (i - 15) 0 >>> 3)
    let s1 := rotr32 (ws.getD (i - 2) 0) 17 ^^^ rotr32 (ws.getD (i - 2) 0) 19 ^^^
      (ws.getD (i - 2) 0 >>> 10)
    extendW f (ws ++ [w32 (ws.getD (i - 16) 0 + s0 + ws.getD (i - 7) 0 + s1)])

/-- Eight-word working state of the compression function. -/
structure Sha256St where
  a : Nat
  b : Nat
  c : Nat
  d : Nat
  e : Nat
  f : Nat
  g : Nat
  h : Nat
  deriving Repr

/-- One SHA-256 compression round. -/
def sha256Round (st : Sha256St) (kw : Nat × Nat) : Sha256St :=
  let s1 := rotr32 st.e 6 ^^^ rotr32 st.e 11 ^^^ rotr32 st.e 25
  let ch := (st.e &&& st.f) ^^^ (not32 st.e &&& st.g)
  let t1 := w32 (st.h + s1 + ch + kw.1 + kw.2)
  let s0 := rotr32 st.a 2 ^^^ rotr32 st.a 13 ^^^ rotr32 st.a 22
  let mj := (st.a &&& st.b) ^^^ (st.a &&& st.c) ^^^ (st.b &&& st.c)
  let t2 := w32 (s0 + mj)
  ⟨w32 (t1 + t2), st.a, st.b, st.c, w32 (st.d + t1), st.e, st.f, st.g⟩

/-- Compress one 64-byte block into the running hash. -/
def sha256Block (hs : List Nat) (block : List Nat) : List Nat :=
  let ws := extendW 48 (toWordsBE 16 block)
  let st0 : Sha256St :=
    ⟨hs.getD 0 0, hs.getD 1 0, hs.getD 2 0, hs.getD 3 0,
     hs.getD 4 0, hs.getD 5 0, hs.getD 6 0, hs.getD 7 0⟩
  let st := (sha256K.zip ws).foldl sha256Round st0
  [w32 (hs.getD 0 0 + st.a), w32 (hs.getD 1 0 + st.b), w32 (hs.getD 2 0 + st.c),
   w32 (hs.getD 3 0 + st.d), w32 (hs.getD 4 0 + st.e), w32 (hs.getD 5 0 + st.f),
   w32 (hs.getD 6 0 + st.g), w32 (hs.getD 7 0 + st.h)]

/-- SHA-256 padding: `0x80`, zeros to 56 mod 64, 8-byte big-endian bit length. -/
def sha256Pad (msg : List Nat) : List Nat :=
  msg ++ [128] ++ List.replicate ((119 - msg.length % 64) % 64) 0 ++
    natToBytesBE 8 (msg.length * 8)

/-- Split a padded message into 64-byte blocks. -/
def toBlocks : Nat → List Nat → List (List Nat)
  | 0, _ => []
  | _ + 1, [] => []
  | f + 1, l => l.take 64 :: toBlocks f (l.drop 64)

/-- The eight 32-bit words of the SHA-256 digest of a byte string. -/
def sha256Words (msg : List Nat) : List Nat :=
  let padded := sha256Pad msg
  (toBlocks (padded.length / 64) padded).foldl sha256Block sha256H0

/-- Lower-case hex digit. -/
def hexDigit (n : Nat) : Char :=
  if n < 10 then Char.ofNat (48 + n) else Char.ofNat (87 + n)

/-- Eight-hex-digit rendering of a 32-bit word. -/
def wordHex8 (w : Nat) : String :=
  String.mk ((List.range 8).map (fun i => hexDigit (w / 16 ^ (7 - i) % 16)))

/-- `hashlib.sha256(msg).hexdigest()`. -/
def sha256hex (msg : List Nat) : String :=
  String.join ((sha256Words msg).map wordHex8)

/-! ## Token construction (`get_auth_token`) -/

/-- One entry of `record.custom_fields`: the code reads `f['name']` and
`f['value']`. -/
structure CustomField where
  name : String
  value : PyVal
  deriving Repr

/-- The slice of a credential record that `get_auth_token` and
`RemoteCommand.execute` read: title, custom fields, endpoint URL. -/
structure KeeperRecord where
  title : String
  custom_fields : List CustomField
  login_url : String
  deriving Repr

/-- The `JWK_FIELDS` table: semantic key → `kind:name` field selector,
in insertion order. -/
def JWK_FIELDS : List (String × String) :=
  [("alg", "text:alg"), ("api", "url:api"), ("aud", "text:aud"),
   ("iss", "url:iss"), ("kid", "text:kid"), ("key", "keyPair:key")]

/-- Python exceptions that the modelled paths can raise. -/
inductive PyErr where
  | keyError (k : String)
  | overflowError
  | typeError
  | indexError
  deriving DecidableEq, Repr

/-- The first loop of `get_auth_token`: for each custom field, for each
`JWK_FIELDS` entry, if the field name equals the selector, bind the
semantic key to the field value. -/
def applyFields (tv : List (String × PyVal)) :
    List CustomField → List (String × PyVal)
  | [] => tv
  | f :: rest =>
    applyFields
      (JWK_FIELDS.foldl
        (fun acc kv => if f.name = kv.2 then dictSet acc kv.1 f.value else acc) tv)
      rest

/-- Python `v.startswith('url:')`, computed on the character list so that
it evaluates definitionally. -/
def startsWithUrl (s : String) : Bool := s.toList.take 4 = "url:".toList

/-- The second loop of `get_auth_token`, with its `break`: only the FIRST
`url:`-kind semantic key still unbound receives `record.login_url`. -/
def applyUrlFallback (tv : List (String × PyVal)) (login_url : String) :
    List (String × PyVal) :=
  match JWK_FIELDS.find? (fun kv => startsWithUrl kv.2 && !dictContains tv kv.1) with
  | some kv => dictSet tv kv.1 (.str login_url)
  | Option.none => tv

/-- `token_vars` after the two resolution loops, before `exp` is added. -/
def tokenVars (record : KeeperRecord) (login : String) (scopes : List String) :
    List (String × PyVal) :=
  applyUrlFallback
    (applyFields
      [("login", .str login), ("scope", .str (String.intercalate " " scopes))]
      record.custom_fields)
    record.login_url

/-- The dict comprehension `{k: token_vars[k] for k in keys}`: `KeyError`
names the first missing key. -/
def buildDict (tv : List (String × PyVal)) :
    List String → Except String (List (String × PyVal))
  | [] => .ok []
  | k :: ks =>
    match dictGet tv k with
    | some v => (buildDict tv ks).map (fun d => (k, v) :: d)
    | Option.none => .error k

/-- The `ent-id` step: `if ent_id: payload['ent-id'] = sha256(
ent_id.to_bytes(4, 'big')).hexdigest()`.  A falsy (zero or absent) id
leaves the payload alone; an id outside four bytes raises `OverflowError`. -/
def entIdStep (payload : List (String × PyVal)) (ent_id : Option Nat) :
    Except PyErr (List (String × PyVal)) :=
  match ent_id with
  | some n =>
    if n ≠ 0 then
      if n < 4294967296 then
        .ok (dictSet payload "ent-id" (.str (sha256hex (natToBytesBE 4 n))))
      else .error PyErr.overflowError
    else .ok payload
  | Option.none => .ok payload

/-- The `public-jwk` step: `if public_jwk: payload['public-jwk'] =
public_jwk.export_public()` (the export string is the supplied value). -/
def publicJwkStep (payload2 : List (String × PyVal)) (public_jwk : Option String) :
    List (String × PyVal) :=
  match public_jwk with
  | some j => dictSet payload2 "public-jwk" (.str j)
  | Option.none => payload2

/-- The tail of `get_auth_token`: the header comprehension, the
`token_vars['key']['privateKey']` subscripts feeding `JWK.from_pem`
(signing itself is the external `jwcrypto`), and the returned triple
`(token_vars['api'], headers, payload)`. -/
def tokenFinish (tv : List (String × PyVal)) (payload3 : List (String × PyVal)) :
    Except PyErr (PyVal × List (String × PyVal) × List (String × PyVal)) :=
  match buildDict tv ["alg", "kid"] with
  | .error k => .error (.keyError k)
  | .ok headers =>
    match dictGet tv "key" with
    | Option.none => .error (.keyError "key")
    | some (.dict kd) =>
      match dictGet kd "privateKey" with
      | some _ =>
        match dictGet tv "api" with
        | some api => .ok (api, headers, payload3)
        | Option.none => .error (.keyError "api")
      | Option.none => .error (.keyError "privateKey")
    | some _ => .error PyErr.typeError

/-- `get_auth_token(record, login, scopes, ent_id, public_jwk, exp_delta)`
at clock time `now`.  Signing and serialization happen in `jwcrypto`
(external); the function's observable result is the endpoint value
`token_vars['api']`, the header dict and the claims dict.  `public_jwk`
is the already-exported public JWK string.  Failures: `KeyError` from the
payload/header comprehensions or the `token_vars['key']` subscripts,
`OverflowError` from `ent_id.to_bytes(4, 'big')`. -/
def get_auth_token (record : KeeperRecord) (login : String) (scopes : List String)
    (ent_id : Option Nat) (public_jwk : Option String) (exp_delta : Nat)
    (now : Nat) : Except PyErr (PyVal × List (String × PyVal) × List (String × PyVal)) :=
  let tv := dictSet (tokenVars record login scopes) "exp" (.int (now + exp_delta))
  match buildDict tv ["exp", "aud", "iss", "kid", "login", "scope"] with
  | .error k => .error (.keyError k)
  | .ok payload =>
    match entIdStep payload ent_id with
    | .error e => .error e
    | .ok payload2 => tokenFinish tv (publicJwkStep payload2 public_jwk)

/-! ## The websocket receive loop (`get_ws_response`) -/

/-- One result of `ws.recv()`: a text frame together with the outcome of
`json.loads` on it (the parser is the external `json` library), a read
timeout (`WebSocketTimeoutException`), or `ConnectionAbortedError`. -/
inductive RecvResult where
  | frame (raw : String) (parsed : Except Unit PyVal)
  | timeout
  | aborted
  deriving Repr

/-- Observable events of the receive loop: the timeout warning, the
invalid-frame warning (showing the current `resp_dict` binding), and a
`print` of the joined rendering. -/
inductive WsEvent where
  | warnTimeout
  | warnInvalid (respDict : PyVal)
  | printed (s : String)
  deriving Repr

/-- How the receive loop ended: the `while` condition became false, an
unhandled `NameError` (`resp_dict` referenced before assignment), an
unhandled `TypeError` (`str.join` of a non-iterable-of-strings), or the
modelled transport queue ran out while the loop would read again. -/
inductive WsOutcome where
  | finished
  | nameError
  | typeError
  | outOfInput
  deriving DecidableEq, Repr

/-- `isinstance(resp_dict, dict) and len(resp_dict) > 0`. -/
def isNonEmptyDict : PyVal → Bool
  | .dict kvs => !kvs.isEmpty
  | _ => false

/-- The frame dict after the pops done on a non-rotate frame: `message`,
`members` and `command` are always popped; `from` is popped only when the
popped `message` value is truthy. -/
def frameRemainder (kvs : List (String × PyVal)) : List (String × PyVal) :=
  let d1 := (dictPopD kvs "message" (.bool false)).2
  let d2 := (dictPopD d1 "members" (.bool false)).2
  let d3 := (dictPopD d2 "command" (.bool false)).2
  if pyTruthy (dictGetD kvs "message" (.bool false)) then
    (dictPopD d3 "from" (.str "anonymous")).2
  else d3

/-- `'\n    '.join([''] + members)`: list concatenation then join; a
non-list or a list with a non-string raises `TypeError`. -/
def membersRender : PyVal → Except Unit String
  | .list vs =>
    match strItems vs with
    | some ss => .ok (String.intercalate "\n    " ("" :: ss))
    | Option.none => .error ()
  | _ => .error ()

/-- The `response` value built from one successfully parsed non-empty
frame dict: the rotate value when `message` is a dict with a truthy
`rotate_log`, otherwise the list of rendered lines.  `.error` is a
`TypeError` raised while rendering `members` or `command`. -/
def frameResponse (kvs : List (String × PyVal)) : Except Unit PyVal :=
  let message := dictGetD kvs "message" (.bool false)
  let rotate_log :=
    match message with
    | .dict m => dictGetD m "rotate_log" (.bool false)
    | _ => .bool false
  if pyTruthy rotate_log then .ok rotate_log
  else
    let members := dictGetD kvs "members" (.bool false)
    let command := dictGetD kvs "command" (.bool false)
    match (if pyTruthy members then
             (membersRender members).map (fun m => ["members: " ++ m])
           else .ok []) with
    | .error e => .error e
    | .ok l1 =>
      match (if pyTruthy command then
               (pyJoin " " command).map (fun c => ["command: " ++ c])
             else .ok []) with
      | .error e => .error e
      | .ok l2 =>
        let l3 :=
          if pyTruthy message then
            [pyStr (dictGetD kvs "from" (.str "anonymous")) ++ ": " ++ pyStr message]
          else []
        let rest := frameRemainder kvs
        let l4 := if rest.isEmpty then [] else [jsonDumps (.dict rest)]
        .ok (.list ((l1 ++ l2 ++ l3 ++ l4).map PyVal.str))

/-- The receive loop of `get_ws_response(ws, print_msg)`.  `resp_dict` is
the current binding of the loop's `resp_dict` variable (`Option.none`
before its first assignment).  Consumes queued transport results; returns
the emitted events, how the loop ended, and the unconsumed queue (so "no
further read was attempted" is visible as an untouched tail). -/
def get_ws_response (print_msg : Bool) (resp_dict : Option PyVal) :
    List RecvResult → List WsEvent × WsOutcome × List RecvResult
  | [] => ([], .outOfInput, [])
  | .timeout :: rest => ([], .finished, rest)
  | .aborted :: rest => ([.warnTimeout], .finished, rest)
  | .frame _ parsed :: rest =>
    match parsed with
    | .error _ =>
      match resp_dict with
      | Option.none => ([], .nameError, rest)
      | some old =>
        let next := get_ws_response print_msg (some old) rest
        (.warnInvalid old :: next.1, next.2.1, next.2.2)
    | .ok v =>
      match v with
      | .dict ((k0, v0) :: kvs) =>
        match frameResponse ((k0, v0) :: kvs) with
        | .error _ => ([], .typeError, rest)
        | .ok resp =>
          if print_msg then
            match pyJoin "\n" resp with
            | .error _ => ([], .typeError, rest)
            | .ok line =>
              let next := get_ws_response print_msg (some (.dict ((k0, v0) :: kvs))) rest
              (.printed line :: next.1, next.2.1, next.2.2)
          else
            get_ws_response print_msg (some (.dict ((k0, v0) :: kvs))) rest
      | PyVal.none => ([.warnInvalid PyVal.none], .finished, rest)
      | _ =>
        let next := get_ws_response print_msg (some v) rest
        (.warnInvalid v :: next.1, next.2.1, next.2.2)

/-! ## Command dispatch (`RemoteCommand.execute`) -/

/-- Endpoint constants of the module. -/
def REMOTE_CONTROL_AUTH_API : String :=
  "https://9qn0mitn5d.execute-api.us-east-1.amazonaws.com/"

/-- The second relay endpoint. -/
def AUTH_URL : String := "https://xmr2imqr1d.execute-api.us-east-1.amazonaws.com/"

/-- Default token expiry delta (2 hours). -/
def JWT_EXP_DELTA : Nat := 7200

/-- What `get_folder` returns: name (for the log line) and uid (for record
creation). -/
structure Folder where
  uid : String
  name : String
  deriving Repr

/-- External collaborators and ambient inputs of one `execute` call:
the record/folder store, the exported user public JWK and its kid, the
HTTP status of GET responses, the wall clock, and a fresh handle for a
newly opened websocket. -/
structure Env where
  getFolder : String → Option Folder
  getRecord : String → Option KeeperRecord
  userPublicJwk : String
  userKid : String
  httpStatus : Nat
  now : Nat
  freshWs : Nat

/-- The slice of `params` that `execute` reads: whether record types are
enabled, the logged-in user, the license's enterprise id, and the
process-wide `ws_connections` registry (login → session handle). -/
structure Params where
  v3Enabled : Bool
  user : String
  licenseEntId : Option Nat
  ws_connections : List (String × Nat)
  deriving Repr

/-- The parsed command-line options (`kwargs`), with `exp_delta`'s
default already applied by argparse. -/
structure Kwargs where
  force : Bool
  command : List String
  remote_folder : Option String
  root_key : Option String
  user_id : Option String
  minion_id : Option String
  exp_delta : Nat
  deriving Repr

/-- Session-registry lookup (`ws_connections.get(login)`). -/
def wsLookup (reg : List (String × Nat)) (k : String) : Option Nat :=
  match reg with
  | [] => Option.none
  | (k0, v0) :: rest => if k0 = k then some v0 else wsLookup rest k

/-- Session-registry insertion (`ws_connections[login] = ws`). -/
def wsSet (reg : List (String × Nat)) (k : String) (v : Nat) : List (String × Nat) :=
  match reg with
  | [] => [(k, v)]
  | (k0, v0) :: rest => if k0 = k then (k0, v) :: rest else (k0, v0) :: wsSet rest k v

/-- Session-registry removal (`ws_connections.pop(login)`), keys unique. -/
def wsRemove (reg : List (String × Nat)) (k : String) : List (String × Nat) :=
  reg.filter (fun kv => kv.1 != k)

/-- Observable actions of one `execute` call, in program order. -/
inductive Effect where
  | warn (msg : String)
  | info (msg : String)
  | tokenIssue (login : String) (scopes : List String)
  | httpPut (url : String)
  | httpGet (url : String)
  | wsSend (payload : String)
  | wsDrain
  | wsConnect (login : String)
  | wsClose (login : String)
  | recordAdd (folderUid : String)
  deriving DecidableEq, Repr

/-- The folder-resolution step at the top of `execute`: its log effects
and the resolved folder. -/
def folderStep (env : Env) (kw : Kwargs) : List Effect × Option Folder :=
  match kw.remote_folder with
  | some path =>
    match env.getFolder path with
    | some f => ([.info ("Found folder " ++ f.name)], some f)
    | Option.none => ([.warn ("Can\x27t find specified folder " ++ path)], Option.none)
  | Option.none => ([], Option.none)

/-- The root-key-resolution step: its log effects and the resolved record. -/
def rootKeyStep (env : Env) (kw : Kwargs) : List Effect × Option KeeperRecord :=
  match kw.root_key with
  | some path =>
    match env.getRecord path with
    | some r => ([.info ("Found root key " ++ r.title)], some r)
    | Option.none => ([.warn ("Can\x27t find root key " ++ path)], Option.none)
  | Option.none => ([], Option.none)

/-- The JSON text of the `send`-type envelope addressed to a minion. -/
def minionCmdPayload (dest : String) (message : List String) : String :=
  jsonDumps (.dict [("action", .str "send"), ("type", .str "command"),
    ("to", .str dest), ("message", .list (message.map PyVal.str))])

/-- `RemoteCommand.execute(params, **kwargs)`: the effect trace, the
`ws_connections` registry afterwards, and the Python exception that
escaped, if any.  The HTTP and record-creation request bodies go to
external collaborators and are not part of the observable trace beyond
the effect itself. -/
def execute (env : Env) (params : Params) (kw : Kwargs) :
    List Effect × List (String × Nat) × Option PyErr :=
  let reg := params.ws_connections
  if params.v3Enabled = false then
    ([.warn "Record types are needed for remote commands"], reg, Option.none)
  else if kw.command.isEmpty then
    ([.warn "Please specify a subcommand to run"], reg, Option.none)
  else
    let pre := (folderStep env kw).1 ++ (rootKeyStep env kw).1
    let remote_folder := (folderStep env kw).2
    let root_key := (rootKeyStep env kw).2
    let user_login := kw.user_id.getD params.user
    let ent_id := params.licenseEntId
    let remote_obj := kw.command.headD ""
    let remote_action := kw.command[1]?
    if remote_obj = "enterprise" then
      match root_key with
      | Option.none => (pre ++ [.warn "--root-key option required"], reg, Option.none)
      | some rk =>
        match get_auth_token rk user_login ["admin"] Option.none Option.none
          JWT_EXP_DELTA env.now with
        | .error e => (pre ++ [.tokenIssue user_login ["admin"]], reg, some e)
        | .ok _ =>
          let base := pre ++ [.tokenIssue user_login ["admin"]]
          if remote_action = some "add" then
            let url := REMOTE_CONTROL_AUTH_API ++ "enterprise/" ++
              (match ent_id with | some n => toString n | Option.none => "None")
            (base ++ [.httpPut url], reg, Option.none)
          else if remote_action = some "check" then
            (base ++ [.httpGet (REMOTE_CONTROL_AUTH_API ++ "enterprise"),
              if env.httpStatus = 200 then .info "Enterprise check successful"
              else .warn "Enterprise check failed"], reg, Option.none)
          else (base, reg, Option.none)
    else if remote_obj = "minion" then
      match kw.minion_id with
      | Option.none =>
        (pre ++ [.warn "The --minion-id (-m) option is required"], reg, Option.none)
      | some minion_id =>
        if remote_action = some "add" then
          match remote_folder with
          | Option.none =>
            (pre ++ [.warn "The --folder (-f) option is required"], reg, Option.none)
          | some fld =>
            match root_key with
            | Option.none => (pre ++ [.warn "--root-key option required"], reg, Option.none)
            | some rk =>
              match get_auth_token rk minion_id ["minion"] ent_id Option.none
                kw.exp_delta env.now with
              | .error e => (pre ++ [.tokenIssue minion_id ["minion"]], reg, some e)
              | .ok _ =>
                (pre ++ [.tokenIssue minion_id ["minion"], .recordAdd fld.uid,
                  .info "Record for minion has been added"], reg, Option.none)
        else if remote_action = some "cmd" ∨ remote_action = some "exit" ∨
            remote_action = some "ping" then
          let cmd := if remote_action = some "cmd" then kw.command.drop 2
            else kw.command.drop 1
          match wsLookup reg user_login with
          | some _ =>
            match cmd with
            | [] =>
              (pre ++ [.wsSend (minionCmdPayload minion_id cmd), .wsDrain], reg,
               some PyErr.indexError)
            | c0 :: _ =>
              (pre ++ [.wsSend (minionCmdPayload minion_id cmd), .wsDrain] ++
                (if c0 = "exit" then [.wsDrain] else []), reg, Option.none)
          | Option.none =>
            (pre ++ [.warn ("Can\x27t find connection for " ++ user_login)], reg,
             Option.none)
        else (pre, reg, Option.none)
    else if remote_obj = "user" then
      let minion := kw.minion_id
      if remote_action = some "disconnect" ∨ remote_action = some "list" ∨
          remote_action = some "receive" then
        match wsLookup reg user_login with
        | some _ =>
          if remote_action = some "disconnect" then
            (pre ++ [.wsClose user_login, .info (user_login ++ " disconnected")],
             wsRemove reg user_login, Option.none)
          else if remote_action = some "receive" then
            (pre ++ [.wsDrain], reg, Option.none)
          else if remote_action = some "list" then
            let action_dict :=
              match kw.command[2]? with
              | some role => [("action", PyVal.str "list"), ("role", PyVal.str role)]
              | Option.none => [("action", PyVal.str "list")]
            (pre ++ [.wsSend (jsonDumps (.dict action_dict)), .wsDrain], reg, Option.none)
          else (pre, reg, Option.none)
        | Option.none =>
          (pre ++ [.warn ("Can\x27t find connection for " ++ user_login)], reg,
           Option.none)
      else if remote_action = some "add" then
        match root_key with
        | Option.none => (pre ++ [.warn "--root-key option required"], reg, Option.none)
        | some rk =>
          match get_auth_token rk user_login ["user"] Option.none Option.none
            JWT_EXP_DELTA env.now with
          | .error e => (pre ++ [.tokenIssue user_login ["user"]], reg, some e)
          | .ok _ =>
            (pre ++ [.tokenIssue user_login ["user"],
              .httpPut (REMOTE_CONTROL_AUTH_API ++ "users/" ++ env.userKid)], reg,
             Option.none)
      else if remote_action = some "check" ∨ remote_action = some "connect" then
        match root_key with
        | Option.none => (pre ++ [.warn "--root-key option required"], reg, Option.none)
        | some rk =>
          match get_auth_token rk user_login ["user"] ent_id (some env.userPublicJwk)
            JWT_EXP_DELTA env.now with
          | .error e => (pre ++ [.tokenIssue user_login ["user"]], reg, some e)
          | .ok _ =>
            let base := pre ++ [.tokenIssue user_login ["user"]]
            if remote_action = some "check" then
              (base ++ [.httpGet (AUTH_URL ++ "user"),
                if env.httpStatus = 200 then .info "User check successful"
                else .warn "User check failed"], reg, Option.none)
            else
              match wsLookup reg user_login with
              | Option.none =>
                let base2 := base ++ [.wsConnect user_login,
                  .info (user_login ++ " connected")]
                let reg2 := wsSet reg user_login env.freshWs
                match minion with
                | some m =>
                  (base2 ++ [.wsSend (minionCmdPayload m ["ping"]), .wsDrain], reg2,
                   Option.none)
                | Option.none => (base2, reg2, Option.none)
              | some _ =>
                (base ++ [.warn ("User " ++ user_login ++ " is already connected")],
                 reg, Option.none)
      else (pre, reg, Option.none)
    else (pre, reg, Option.none)

/-! ## Auxiliary predicates and concrete test fixtures -/

/-- Whether the record carries a custom field with the given name. -/
def hasFieldNamed (r : KeeperRecord) (n : String) : Bool :=
  r.custom_fields.any (fun f => f.name = n)

/-- Effects that reach the network or an external store: token issuance,
HTTP calls, websocket traffic, connection changes, record creation. -/
def networkEffect : Effect → Bool
  | .tokenIssue _ _ => true
  | .httpPut _ => true
  | .httpGet _ => true
  | .wsSend _ => true
  | .wsDrain => true
  | .wsConnect _ => true
  | .wsClose _ => true
  | .recordAdd _ => true
  | .warn _ => false
  | .info _ => false

/-- A trace with no network or external-store effect at all. -/
def quiet (es : List Effect) : Bool := es.all (fun e => !networkEffect e)

/-- Whether the effect is a user-facing warning. -/
def isWarnEffect : Effect → Bool
  | .warn _ => true
  | _ => false

/-- A trace containing at least one user-facing warning. -/
def hasWarn (es : List Effect) : Bool := es.any isWarnEffect

/-- The conclusion of the precondition claims: a warning is emitted, no
network or store effect happens, the registry is unchanged, and no
exception escapes. -/
def warnsAndStops (env : Env) (params : Params) (kw : Kwargs) : Prop :=
  hasWarn (execute env params kw).1 = true ∧
  quiet (execute env params kw).1 = true ∧
  (execute env params kw).2.1 = params.ws_connections ∧
  (execute env params kw).2.2 = Option.none

/-- A JWK record with every `JWK_FIELDS` selector present explicitly. -/
def fullRecord : KeeperRecord :=
  ⟨"root",
   [⟨"text:alg", .str "RS256"⟩, ⟨"url:api", .str "https://api.example/"⟩,
    ⟨"text:aud", .str "aud1"⟩, ⟨"url:iss", .str "https://iss.example/"⟩,
    ⟨"text:kid", .str "kid1"⟩,
    ⟨"keyPair:key", .dict [("privateKey", .str "PEM"), ("publicKey", .str "PUB")]⟩],
   "https://record.example/"⟩

/-- A JWK record with neither `url:api` nor `url:iss` present. -/
def noUrlRecord : KeeperRecord :=
  ⟨"root",
   [⟨"text:alg", .str "RS256"⟩, ⟨"text:aud", .str "aud1"⟩,
    ⟨"text:kid", .str "kid1"⟩,
    ⟨"keyPair:key", .dict [("privateKey", .str "PEM"), ("publicKey", .str "PUB")]⟩],
   "https://record.example/"⟩

/-- A JWK record with `url:api` present but `url:iss` absent. -/
def apiOnlyRecord : KeeperRecord :=
  ⟨"root",
   [⟨"text:alg", .str "RS256"⟩, ⟨"url:api", .str "https://api.example/"⟩,
    ⟨"text:aud", .str "aud1"⟩, ⟨"text:kid", .str "kid1"⟩,
    ⟨"keyPair:key", .dict [("privateKey", .str "PEM"), ("publicKey", .str "PUB")]⟩],
   "https://record.example/"⟩

/-- A concrete environment whose store resolves every path. -/
def env0 : Env :=
  ⟨fun _ => some ⟨"uid1", "fold"⟩, fun _ => some fullRecord, "JWKPUB", "kid9", 200, 1000, 7⟩

/-- A concrete environment whose store resolves nothing. -/
def envEmpty : Env :=
  ⟨fun _ => Option.none, fun _ => Option.none, "JWKPUB", "kid9", 200, 1000, 7⟩

/-- Params with one live session for `alice`. -/
def paramsAlice : Params := ⟨true, "alice", Option.none, [("alice", 3)]⟩

/-- Params with an empty session registry. -/
def paramsNoWs : Params := ⟨true, "alice", Option.none, []⟩

/-- Kwargs with the given command, no options beyond it. -/
def kwargsOf (cmd : List String) : Kwargs :=
  ⟨false, cmd, Option.none, Option.none, Option.none, Option.none, 7200⟩

/-- The inbound frame whose `message` mapping requests a log rotation. -/
def rotateLogFrame : RecvResult :=
  .frame "\x7b\"message\": \x7b\"rotate_log\": true\x7d\x7d"
    (.ok (.dict [("message", .dict [("rotate_log", .bool true)])]))

/-- The inbound frame carrying `from` but no `message`. -/
def fromNoMessageFrame : List (String × PyVal) :=
  [("from", .str "bob"), ("extra", .int 1)]

/-! ## Dictionary lemmas -/

theorem dictGet_dictSet (kvs : List (String × PyVal)) (k k' : String) (v : PyVal) :
    dictGet (dictSet kvs k v) k' = if k' = k then some v else dictGet kvs k' := by
  induction kvs with
  | nil =>
    by_cases h : k' = k
    · subst h; simp [dictSet, dictGet]
    · simp [dictSet, dictGet, h, Ne.symm h]
  | cons kv0 rest ih =>
    obtain ⟨k0, v0⟩ := kv0
    by_cases h0 : k0 = k
    · subst h0
      by_cases h : k' = k0
      · subst h; simp [dictSet, dictGet]
      · simp [dictSet, dictGet, h, Ne.symm h]
    · by_cases h' : k0 = k'
      · subst h'
        simp [dictSet, dictGet, h0, Ne.symm h0]
      · simp [dictSet, dictGet, h0, h', ih]

theorem dictContains_eq_isSome (kvs : List (String × PyVal)) (k : String) :
    dictContains kvs k = (dictGet kvs k).isSome := by
  induction kvs with
  | nil => rfl
  | cons kv0 rest ih =>
    obtain ⟨k0, v0⟩ := kv0
    by_cases h : k0 = k <;> simp [dictContains, dictGet, h, ih]

theorem dictGet_filter_self (kvs : List (String × PyVal)) (k : String) :
    dictGet (kvs.filter (fun kv => kv.1 != k)) k = Option.none := by
  induction kvs with
  | nil => rfl
  | cons kv0 rest ih =>
    obtain ⟨k0, v0⟩ := kv0
    by_cases h : k0 = k
    · have hb : ((k0, v0).1 != k) = false := by simp [bne, h]
      simp [List.filter_cons, hb, ih]
    · have hb : ((k0, v0).1 != k) = true := by simp [bne, h]
      simp [List.filter_cons, hb, dictGet, h, ih]

theorem dictGet_filter_none (kvs : List (String × PyVal)) (p : String × PyVal → Bool)
    (k : String) (h : dictGet kvs k = Option.none) :
    dictGet (kvs.filter p) k = Option.none := by
  induction kvs with
  | nil => rfl
  | cons kv0 rest ih =>
    obtain ⟨k0, v0⟩ := kv0
    by_cases h0 : k0 = k
    · subst h0; simp [dictGet] at h
    · simp only [dictGet, if_neg h0] at h
      by_cases hp : p (k0, v0) <;> simp [List.filter, hp, dictGet, h0, ih h]

/-! ## Resolution-loop lemmas -/

theorem applyFields_get_other (fields : List CustomField) (tv : List (String × PyVal))
    (k : String) (h1 : k ≠ "alg") (h2 : k ≠ "api") (h3 : k ≠ "aud") (h4 : k ≠ "iss")
    (h5 : k ≠ "kid") (h6 : k ≠ "key") :
    dictGet (applyFields tv fields) k = dictGet tv k := by
  induction fields generalizing tv with
  | nil => rfl
  | cons f rest ih =>
    simp only [applyFields]
    rw [ih]
    simp [JWK_FIELDS, List.foldl_cons, List.foldl_nil, dictGet_dictSet,
      apply_ite (fun l => dictGet l k), h1, h2, h3, h4, h5, h6]

theorem applyFields_contains_api (fields : List CustomField)
    (tv : List (String × PyVal)) :
    dictContains (applyFields tv fields) "api" =
      (dictContains tv "api" || fields.any (fun f => f.name = "url:api")) := by
  induction fields generalizing tv with
  | nil => simp [applyFields]
  | cons f rest ih =>
    simp only [applyFields]
    rw [ih]
    by_cases hf : f.name = "url:api" <;>
      simp [JWK_FIELDS, List.foldl_cons, List.foldl_nil, dictContains_eq_isSome,
        dictGet_dictSet, apply_ite (fun l => dictGet l "api"), apply_ite Option.isSome,
        hf, List.any_cons]

theorem applyFields_contains_iss (fields : List CustomField)
    (tv : List (String × PyVal)) :
    dictContains (applyFields tv fields) "iss" =
      (dictContains tv "iss" || fields.any (fun f => f.name = "url:iss")) := by
  induction fields generalizing tv with
  | nil => simp [applyFields]
  | cons f rest ih =>
    simp only [applyFields]
    rw [ih]
    by_cases hf : f.name = "url:iss" <;>
      simp [JWK_FIELDS, List.foldl_cons, List.foldl_nil, dictContains_eq_isSome,
        dictGet_dictSet, apply_ite (fun l => dictGet l "iss"), apply_ite Option.isSome,
        hf, List.any_cons]

/-! ## Claim C1 -/

/-- C1 (claim as stated is refuted by `claim_C1_counterexample`; this is the
amended statement): the fallback loop `break`s after the first substitution,
so in `JWK_FIELDS` order `api` is considered before `iss`.  (a) When `url:api`
is not an explicit field, `api` receives the endpoint-URL fallback.  (b) When
`url:api` is explicit and `url:iss` is not, `iss` receives the fallback.
(c) When BOTH are unresolved, only `api` is substituted and `iss` stays
unresolved — token issuance then fails with a missing-`iss` `KeyError` rather
than falling back for both. -/
theorem claim_C1_amended (record : KeeperRecord) (login : String) (scopes : List String) :
    (hasFieldNamed record "url:api" = false →
      dictGet (tokenVars record login scopes) "api" = some (.str record.login_url)) ∧
    (hasFieldNamed record "url:api" = true → hasFieldNamed record "url:iss" = false →
      dictGet (tokenVars record login scopes) "iss" = some (.str record.login_url)) ∧
    (hasFieldNamed record "url:api" = false → hasFieldNamed record "url:iss" = false →
      dictContains (tokenVars record login scopes) "iss" = false) := by
  have s1 : startsWithUrl "text:alg" = false := rfl
  have s2 : startsWithUrl "url:api" = true := rfl
  have s3 : startsWithUrl "text:aud" = false := rfl
  have s4 : startsWithUrl "url:iss" = true := rfl
  have capi := applyFields_contains_api record.custom_fields
    [("login", .str login), ("scope", .str (String.intercalate " " scopes))]
  have ciss := applyFields_contains_iss record.custom_fields
    [("login", .str login), ("scope", .str (String.intercalate " " scopes))]
  have i1 : dictContains [("login", PyVal.str login),
      ("scope", PyVal.str (String.intercalate " " scopes))] "api" = false := rfl
  have i2 : dictContains [("login", PyVal.str login),
      ("scope", PyVal.str (String.intercalate " " scopes))] "iss" = false := rfl
  rw [i1] at capi
  rw [i2] at ciss
  refine ⟨?_, ?_, ?_⟩
  · intro hapi
    have capi' : dictContains (applyFields [("login", PyVal.str login),
        ("scope", PyVal.str (String.intercalate " " scopes))] record.custom_fields)
        "api" = false := by
      rw [capi]
      simpa [hasFieldNamed] using hapi
    simp [tokenVars, applyUrlFallback, JWK_FIELDS, List.find?, s1, s2, capi',
      dictGet_dictSet]
  · intro hapi hiss
    have capi' : dictContains (applyFields [("login", PyVal.str login),
        ("scope", PyVal.str (String.intercalate " " scopes))] record.custom_fields)
        "api" = true := by
      rw [capi]
      simpa [hasFieldNamed] using hapi
    have ciss' : dictContains (applyFields [("login", PyVal.str login),
        ("scope", PyVal.str (String.intercalate " " scopes))] record.custom_fields)
        "iss" = false := by
      rw [ciss]
      simpa [hasFieldNamed] using hiss
    simp [tokenVars, applyUrlFallback, JWK_FIELDS, List.find?, s1, s2, s3, s4,
      capi', ciss', dictGet_dictSet]
  · intro hapi hiss
    have capi' : dictContains (applyFields [("login", PyVal.str login),
        ("scope", PyVal.str (String.intercalate " " scopes))] record.custom_fields)
        "api" = false := by
      rw [capi]
      simpa [hasFieldNamed] using hapi
    have ciss' : dictContains (applyFields [("login", PyVal.str login),
        ("scope", PyVal.str (String.intercalate " " scopes))] record.custom_fields)
        "iss" = false := by
      rw [ciss]
      simpa [hasFieldNamed] using hiss
    have hnone : dictGet (applyFields [("login", PyVal.str login),
        ("scope", PyVal.str (String.intercalate " " scopes))] record.custom_fields)
        "iss" = Option.none := by
      rw [dictContains_eq_isSome] at ciss'
      cases hx : dictGet (applyFields [("login", PyVal.str login),
          ("scope", PyVal.str (String.intercalate " " scopes))] record.custom_fields)
          "iss" with
      | none => rfl
      | some w => rw [hx] at ciss'; simp at ciss'
    simp [tokenVars, applyUrlFallback, JWK_FIELDS, List.find?, s1, s2, capi',
      dictContains_eq_isSome, dictGet_dictSet, hnone]

/-- C1 counterexample: a record resolving every semantic key except the two
`url`-kind ones.  The claim says both then receive the endpoint-URL fallback
and issuance does not fail; in fact only `api` is substituted (the loop
`break`s) and issuance fails with `KeyError` on `iss`. -/
theorem claim_C1_counterexample :
    get_auth_token noUrlRecord "alice" ["admin"] Option.none Option.none
      JWT_EXP_DELTA 1000 = .error (PyErr.keyError "iss") := rfl

/-- C1 witness: the amended statement applied at concrete records — `api`
falls back on `noUrlRecord`, `iss` falls back on `apiOnlyRecord`, and on
`noUrlRecord` (both unresolved) `iss` stays unresolved. -/
theorem claim_C1_witness :
    (hasFieldNamed noUrlRecord "url:api" = false ∧
     dictGet (tokenVars noUrlRecord "alice" ["admin"]) "api" =
       some (.str "https://record.example/")) ∧
    (hasFieldNamed apiOnlyRecord "url:api" = true ∧
     hasFieldNamed apiOnlyRecord "url:iss" = false ∧
     dictGet (tokenVars apiOnlyRecord "alice" ["admin"]) "iss" =
       some (.str "https://record.example/")) ∧
    dictContains (tokenVars noUrlRecord "alice" ["admin"]) "iss" = false :=
  ⟨⟨rfl, (claim_C1_amended noUrlRecord "alice" ["admin"]).1 rfl⟩,
   ⟨rfl, rfl, (claim_C1_amended apiOnlyRecord "alice" ["admin"]).2.1 rfl rfl⟩,
   (claim_C1_amended noUrlRecord "alice" ["admin"]).2.2 rfl rfl⟩

/-! ## Payload lemmas -/

theorem buildDict_get_mem (tv : List (String × PyVal)) (ks : List String)
    (d : List (String × PyVal)) (k : String) (h : buildDict tv ks = .ok d)
    (hk : k ∈ ks) : dictGet d k = dictGet tv k := by
  induction ks generalizing d with
  | nil => simp at hk
  | cons k0 rest ih =>
    simp only [buildDict] at h
    cases hg : dictGet tv k0 with
    | none => rw [hg] at h; simp at h
    | some v =>
      rw [hg] at h
      cases hb : buildDict tv rest with
      | error e => rw [hb] at h; simp [Except.map] at h
      | ok d0 =>
        rw [hb] at h
        simp only [Except.map] at h
        cases h
        by_cases hkk : k0 = k
        · subst hkk; simp [dictGet, hg]
        · have hk' : k ∈ rest := by
            rcases List.mem_cons.mp hk with hk | hk
            · exact absurd hk.symm hkk
            · exact hk
          simp [dictGet, hkk, ih d0 hb hk']

theorem buildDict_get_notmem (tv : List (String × PyVal)) (ks : List String)
    (d : List (String × PyVal)) (k : String) (h : buildDict tv ks = .ok d)
    (hk : k ∉ ks) : dictGet d k = Option.none := by
  induction ks generalizing d with
  | nil => simp only [buildDict] at h; cases h; rfl
  | cons k0 rest ih =>
    simp only [buildDict] at h
    cases hg : dictGet tv k0 with
    | none => rw [hg] at h; simp at h
    | some v =>
      rw [hg] at h
      cases hb : buildDict tv rest with
      | error e => rw [hb] at h; simp [Except.map] at h
      | ok d0 =>
        rw [hb] at h
        simp only [Except.map] at h
        cases h
        have hkk : k0 ≠ k := fun he => hk (he ▸ List.mem_cons_self k0 rest)
        have hk' : k ∉ rest := fun he => hk (List.mem_cons_of_mem k0 he)
        simp [dictGet, hkk, ih d0 hb hk']

theorem applyUrlFallback_get_other (tv : List (String × PyVal)) (u : String)
    (k : String) (h2 : k ≠ "api") (h4 : k ≠ "iss") :
    dictGet (applyUrlFallback tv u) k = dictGet tv k := by
  have s1 : startsWithUrl "text:alg" = false := rfl
  have s3 : startsWithUrl "text:aud" = false := rfl
  have s5 : startsWithUrl "text:kid" = false := rfl
  have s6 : startsWithUrl "keyPair:key" = false := rfl
  unfold applyUrlFallback
  cases hf : JWK_FIELDS.find? (fun kv => startsWithUrl kv.2 && !dictContains tv kv.1) with
  | none => rfl
  | some kv =>
    have hp := List.find?_some hf
    have hm := List.mem_of_find?_eq_some hf
    simp only [JWK_FIELDS, List.mem_cons, List.not_mem_nil, or_false] at hm
    rcases hm with hm | hm | hm | hm | hm | hm <;> subst hm <;>
      simp_all [dictGet_dictSet, h2, h4]

theorem tokenFinish_ok (tv p3 : List (String × PyVal))
    (out : PyVal × List (String × PyVal) × List (String × PyVal))
    (h : tokenFinish tv p3 = .ok out) : out.2.2 = p3 := by
  unfold tokenFinish at h
  split at h
  · simp at h
  · split at h
    · simp at h
    · split at h
      · split at h
        · cases h; rfl
        · simp at h
      · simp at h
    · simp at h

theorem entIdStep_shape (payload : List (String × PyVal)) (ent_id : Option Nat)
    (p2 : List (String × PyVal)) (h : entIdStep payload ent_id = .ok p2) :
    (ent_id = Option.none → p2 = payload) ∧
    (ent_id = some 0 → p2 = payload) ∧
    (∀ n, ent_id = some n → n ≠ 0 →
      n < 4294967296 ∧
      p2 = dictSet payload "ent-id" (.str (sha256hex (natToBytesBE 4 n)))) := by
  cases ent_id with
  | none =>
    simp only [entIdStep] at h
    cases h
    exact ⟨fun _ => rfl, by simp, by simp⟩
  | some n =>
    by_cases hn0 : n = 0
    · subst hn0
      simp only [entIdStep, ne_eq, not_true_eq_false] at h
      rw [if_neg (by simp)] at h
      cases h
      refine ⟨by simp, fun _ => rfl, ?_⟩
      intro m hm hmne
      cases hm
      exact absurd rfl hmne
    · by_cases hlt : n < 4294967296
      · simp only [entIdStep] at h
        rw [if_pos hn0, if_pos hlt] at h
        cases h
        refine ⟨by simp, by simp [hn0], ?_⟩
        intro m hm _
        cases hm
        exact ⟨hlt, rfl⟩
      · simp only [entIdStep] at h
        rw [if_pos hn0, if_neg hlt] at h
        simp at h

/-- Success shape of `get_auth_token`: on `.ok`, the claims dict is the
six-key payload, extended by `ent-id` exactly when a nonzero in-range
enterprise id was supplied, then by `public-jwk` when a public JWK was
supplied. -/
theorem get_auth_token_payload (record : KeeperRecord) (login : String)
    (scopes : List String) (ent_id : Option Nat) (public_jwk : Option String)
    (exp_delta now : Nat) (out : PyVal × List (String × PyVal) × List (String × PyVal))
    (h : get_auth_token record login scopes ent_id public_jwk exp_delta now = .ok out) :
    ∃ p0 p2, buildDict (dictSet (tokenVars record login scopes) "exp"
        (.int (now + exp_delta))) ["exp", "aud", "iss", "kid", "login", "scope"] =
        .ok p0 ∧
      entIdStep p0 ent_id = .ok p2 ∧
      out.2.2 = publicJwkStep p2 public_jwk := by
  simp only [get_auth_token] at h
  split at h
  · simp at h
  · split at h
    · simp at h
    · exact ⟨_, _, by assumption, by assumption, tokenFinish_ok _ _ _ h⟩

theorem dictGet_publicJwkStep_ne (p2 : List (String × PyVal)) (pj : Option String)
    (k : String) (hk : k ≠ "public-jwk") :
    dictGet (publicJwkStep p2 pj) k = dictGet p2 k := by
  cases pj with
  | none => rfl
  | some j => simp [publicJwkStep, dictGet_dictSet, hk]

/-! ## Claim C6 -/

/-- C6 (amended; the claim as stated fails at the identifier `0`, see
`claim_C6_counterexample`): for every NONZERO numeric enterprise identifier
supplied to token issuance, whenever issuance succeeds the claims contain
`ent-id` equal to the SHA-256 hex digest of the identifier's 4-byte
big-endian encoding, and never the raw numeric identifier (the stored value
is the digest string, not a number). -/
theorem claim_C6_amended (record : KeeperRecord) (login : String)
    (scopes : List String) (n : Nat) (public_jwk : Option String)
    (exp_delta now : Nat)
    (out : PyVal × List (String × PyVal) × List (String × PyVal))
    (hn : n ≠ 0)
    (h : get_auth_token record login scopes (some n) public_jwk exp_delta now = .ok out) :
    dictGet out.2.2 "ent-id" = some (.str (sha256hex (natToBytesBE 4 n))) ∧
    (∀ m : Int, dictGet out.2.2 "ent-id" ≠ some (.int m)) := by
  obtain ⟨p0, p2, hb, hent, hpay⟩ := get_auth_token_payload _ _ _ _ _ _ _ _ h
  obtain ⟨-, -, hshape⟩ := entIdStep_shape _ _ _ hent
  obtain ⟨hlt, hp2⟩ := hshape n rfl hn
  subst hp2
  rw [hpay, dictGet_publicJwkStep_ne _ _ _ (by decide), dictGet_dictSet]
  constructor
  · simp
  · intro m
    simp

/-- C6 counterexample: the identifier `0` is a numeric enterprise identifier,
but `if ent_id:` treats it as falsy, so issuance succeeds WITHOUT any
`ent-id` claim — the claims do not contain the digest the claim promises. -/
theorem claim_C6_counterexample :
    get_auth_token fullRecord "alice" ["minion"] (some 0) Option.none
        JWT_EXP_DELTA 1000 =
      .ok (.str "https://api.example/",
        [("alg", PyVal.str "RS256"), ("kid", PyVal.str "kid1")],
        [("exp", PyVal.int 8200), ("aud", PyVal.str "aud1"),
         ("iss", PyVal.str "https://iss.example/"), ("kid", PyVal.str "kid1"),
         ("login", PyVal.str "alice"), ("scope", PyVal.str "minion")]) ∧
    dictGet [("exp", PyVal.int 8200), ("aud", PyVal.str "aud1"),
         ("iss", PyVal.str "https://iss.example/"), ("kid", PyVal.str "kid1"),
         ("login", PyVal.str "alice"), ("scope", PyVal.str "minion")] "ent-id" =
      Option.none :=
  ⟨rfl, rfl⟩

/-- C6 witness: the amended statement applied at the concrete identifier
`5` on `fullRecord`; the `ent-id` claim is the SHA-256 hex digest of
`(5).to_bytes(4, 'big')`. -/
theorem claim_C6_witness :
    (5 : Nat) ≠ 0 ∧
    dictGet [("exp", PyVal.int 8200), ("aud", PyVal.str "aud1"),
        ("iss", PyVal.str "https://iss.example/"), ("kid", PyVal.str "kid1"),
        ("login", PyVal.str "alice"), ("scope", PyVal.str "minion"),
        ("ent-id", PyVal.str
          "221f8af2372a95064f2ef7d7712216a9ab46e7ef98482fd237e106f83eaa7569")]
      "ent-id" = some (.str (sha256hex (natToBytesBE 4 5))) :=
  ⟨by decide,
   (claim_C6_amended fullRecord "alice" ["minion"] 5 Option.none JWT_EXP_DELTA 1000
     (.str "https://api.example/",
      [("alg", PyVal.str "RS256"), ("kid", PyVal.str "kid1")],
      [("exp", PyVal.int 8200), ("aud", PyVal.str "aud1"),
       ("iss", PyVal.str "https://iss.example/"), ("kid", PyVal.str "kid1"),
       ("login", PyVal.str "alice"), ("scope", PyVal.str "minion"),
       ("ent-id", PyVal.str
         "221f8af2372a95064f2ef7d7712216a9ab46e7ef98482fd237e106f83eaa7569")])
     (by decide) rfl).1⟩

/-! ## Claim C9 -/

/-- C9: for every list of role strings supplied to token issuance, the
issued `scope` claim is the space-join of the roles in input order; and the
operation is order-sensitive — the spec's own instance `["admin","user"]`
versus `["user","admin"]` resolves to different scope strings. -/
theorem claim_C9_scope (record : KeeperRecord) (login : String)
    (scopes : List String) (ent_id : Option Nat) (public_jwk : Option String)
    (exp_delta now : Nat)
    (out : PyVal × List (String × PyVal) × List (String × PyVal))
    (_hne : scopes ≠ [])
    (h : get_auth_token record login scopes ent_id public_jwk exp_delta now = .ok out) :
    dictGet out.2.2 "scope" = some (.str (String.intercalate " " scopes)) ∧
    dictGet (tokenVars fullRecord "alice" ["admin", "user"]) "scope" ≠
      dictGet (tokenVars fullRecord "alice" ["user", "admin"]) "scope" := by
  obtain ⟨p0, p2, hb, hent, hpay⟩ := get_auth_token_payload _ _ _ _ _ _ _ _ h
  have hscope_p2 : dictGet p2 "scope" = dictGet p0 "scope" := by
    obtain ⟨hn1, hn2, hn3⟩ := entIdStep_shape _ _ _ hent
    cases ent_id with
    | none => rw [hn1 rfl]
    | some n =>
      by_cases hn0 : n = 0
      · subst hn0; rw [hn2 rfl]
      · obtain ⟨-, hp2⟩ := hn3 n rfl hn0
        subst hp2
        rw [dictGet_dictSet]
        simp
  have h6 : dictGet p0 "scope" =
      dictGet (dictSet (tokenVars record login scopes) "exp"
        (.int (now + exp_delta))) "scope" :=
    buildDict_get_mem _ _ _ _ hb (by simp)
  constructor
  · rw [hpay, dictGet_publicJwkStep_ne _ _ _ (by decide), hscope_p2, h6,
      dictGet_dictSet, if_neg (by decide)]
    unfold tokenVars
    rw [applyUrlFallback_get_other _ _ _ (by decide) (by decide),
      applyFields_get_other _ _ _ (by decide) (by decide) (by decide) (by decide)
        (by decide) (by decide)]
    simp [dictGet]
  · intro hcon
    have e1 : dictGet (tokenVars fullRecord "alice" ["admin", "user"]) "scope" =
        some (.str "admin user") := rfl
    have e2 : dictGet (tokenVars fullRecord "alice" ["user", "admin"]) "scope" =
        some (.str "user admin") := rfl
    rw [e1, e2] at hcon
    have := PyVal.str.inj (Option.some.inj hcon)
    exact absurd this (by decide)

/-- C9 witness: the statement applied at the concrete roles
`["admin", "user"]` on `fullRecord` — the scope claim is `"admin user"`. -/
theorem claim_C9_witness :
    (["admin", "user"] : List String) ≠ [] ∧
    dictGet [("exp", PyVal.int 8200), ("aud", PyVal.str "aud1"),
        ("iss", PyVal.str "https://iss.example/"), ("kid", PyVal.str "kid1"),
        ("login", PyVal.str "alice"), ("scope", PyVal.str "admin user")]
      "scope" = some (.str (String.intercalate " " ["admin", "user"])) :=
  ⟨by decide,
   (claim_C9_scope fullRecord "alice" ["admin", "user"] Option.none Option.none
     JWT_EXP_DELTA 1000
     (.str "https://api.example/",
      [("alg", PyVal.str "RS256"), ("kid", PyVal.str "kid1")],
      [("exp", PyVal.int 8200), ("aud", PyVal.str "aud1"),
       ("iss", PyVal.str "https://iss.example/"), ("kid", PyVal.str "kid1"),
       ("login", PyVal.str "alice"), ("scope", PyVal.str "admin user")])
     (by decide) rfl).1⟩

/-! ## Claim C10 -/

/-- C10: when the very FIRST frame of a receive call fails JSON parsing, the
warning f-string references `resp_dict` before any assignment, so the call
raises an unhandled name-resolution error: no warning is emitted, the
outcome is the `NameError`, and no further read is attempted (the rest of
the queue is untouched).  By contrast, once some earlier frame has bound
`resp_dict`, the same parse failure warns and continues. -/
theorem claim_C10_first_frame_unbound (print_msg : Bool) (raw : String)
    (rest : List RecvResult) :
    get_ws_response print_msg Option.none (.frame raw (.error ()) :: rest) =
      ([], .nameError, rest) ∧
    (∀ prev : PyVal,
      get_ws_response print_msg (some prev) (.frame raw (.error ()) :: rest) =
        ((.warnInvalid prev) :: (get_ws_response print_msg (some prev) rest).1,
         (get_ws_response print_msg (some prev) rest).2.1,
         (get_ws_response print_msg (some prev) rest).2.2)) :=
  ⟨rfl, fun _ => rfl⟩

/-! ## Claim C2 -/

/-- C2: the receive loop does NOT cleanly emit a log-rotation signal for a
`rotate_log: true` frame.  With printing on (every call site), `response`
is set to the boolean `True` and `'\n'.join(response)` raises `TypeError`:
nothing is emitted, the loop dies exceptionally, the remaining queue is
untouched.  With printing off, the loop does not stop at all: it reads
again (the trailing timeout is consumed). -/
theorem claim_C2_rotate_crash :
    get_ws_response true Option.none [rotateLogFrame, .timeout] =
      ([], .typeError, [.timeout]) ∧
    get_ws_response false Option.none [rotateLogFrame, .timeout] =
      ([], .finished, []) :=
  ⟨rfl, rfl⟩

/-! ## Claim C3 -/

/-- C3 counterexample: a frame parsing to the empty mapping is warned about,
but the loop does NOT stop: it reads the next frame (also invalid here) and
then the timeout — all three queued results are consumed, with two
invalid-frame warnings, where the claim requires stopping after the
first. -/
theorem claim_C3_counterexample :
    get_ws_response true Option.none
        [.frame "\x7b\x7d" (.ok (.dict [])), .frame "0" (.ok (.int 0)), .timeout] =
      ([.warnInvalid (.dict []), .warnInvalid (.int 0)], .finished, []) := rfl

/-- C3 (amended; the claim's "stops reading" is refuted by
`claim_C3_counterexample`): an inbound frame that fails JSON parsing (after
some earlier frame bound `resp_dict`) yields an invalid-frame warning and
the loop CONTINUES reading; a frame parsing to a non-non-empty-mapping
value yields the warning and continues too, except JSON `null`, which ends
the loop (the `None` loop state is exactly the `while` exit condition).  A
first-frame parse failure instead raises the name-resolution error of
C10. -/
theorem claim_C3_amended (print_msg : Bool) (prev v : PyVal) (raw : String)
    (rest : List RecvResult) (h : isNonEmptyDict v = false) :
    (get_ws_response print_msg (some prev) (.frame raw (.error ()) :: rest) =
      ((.warnInvalid prev) :: (get_ws_response print_msg (some prev) rest).1,
       (get_ws_response print_msg (some prev) rest).2.1,
       (get_ws_response print_msg (some prev) rest).2.2)) ∧
    (v = PyVal.none →
      ∀ rd : Option PyVal,
        get_ws_response print_msg rd (.frame raw (.ok v) :: rest) =
          ([.warnInvalid v], .finished, rest)) ∧
    (v ≠ PyVal.none →
      ∀ rd : Option PyVal,
        get_ws_response print_msg rd (.frame raw (.ok v) :: rest) =
          ((.warnInvalid v) :: (get_ws_response print_msg (some v) rest).1,
           (get_ws_response print_msg (some v) rest).2.1,
           (get_ws_response print_msg (some v) rest).2.2)) := by
  refine ⟨rfl, ?_, ?_⟩
  · intro hv rd
    subst hv
    rfl
  · intro hv rd
    cases v with
    | none => exact absurd rfl hv
    | bool b => rfl
    | int n => rfl
    | str s => rfl
    | list vs => rfl
    | dict kvs =>
      cases kvs with
      | nil => rfl
      | cons kv0 tl => simp [isNonEmptyDict] at h

/-- C3 witness: the amended statement applied to a frame parsing to the
integer `0`, after a previous frame: one warning, and the following timeout
is still read. -/
theorem claim_C3_witness :
    isNonEmptyDict (PyVal.int 0) = false ∧
    get_ws_response true (some (PyVal.dict [])) [.frame "0" (.ok (.int 0)), .timeout] =
      ([.warnInvalid (.int 0)], .finished, []) :=
  ⟨rfl, by
    rw [(claim_C3_amended true (PyVal.dict []) (PyVal.int 0) "0" [.timeout]
      rfl).2.2 (by simp) (some (PyVal.dict []))]
    rfl⟩

/-! ## Claim C4 -/

/-- C4 counterexample: a frame carrying `from` but no `message` — `from` is
popped only inside `if message:`, so here it survives into the JSON
remainder line, which the claim says can never contain it. -/
theorem claim_C4_counterexample :
    dictContains (frameRemainder fromNoMessageFrame) "from" = true ∧
    get_ws_response true Option.none
        [.frame "f" (.ok (.dict fromNoMessageFrame)), .timeout] =
      ([.printed "\x7b\"from\": \"bob\", \"extra\": 1\x7d"], .finished, []) :=
  ⟨rfl, rfl⟩

/-- C4 (amended; the claim's "all four keys are removed" is refuted at
`claim_C4_counterexample`): `message`, `members` and `command` are always
removed before the remainder rendering, but `from` is removed only when the
popped `message` value is truthy; a frame with `from` and no (truthy)
`message` therefore renders `from` in the remainder line. -/
theorem claim_C4_amended (kvs : List (String × PyVal)) :
    dictContains (frameRemainder kvs) "message" = false ∧
    dictContains (frameRemainder kvs) "members" = false ∧
    dictContains (frameRemainder kvs) "command" = false ∧
    (pyTruthy (dictGetD kvs "message" (.bool false)) = true →
      dictContains (frameRemainder kvs) "from" = false) := by
  refine ⟨?_, ?_, ?_, ?_⟩
  · rw [dictContains_eq_isSome]
    have hn : dictGet (frameRemainder kvs) "message" = Option.none := by
      unfold frameRemainder dictPopD
      simp only
      split
      · exact dictGet_filter_none _ _ _ (dictGet_filter_none _ _ _
          (dictGet_filter_none _ _ _ (dictGet_filter_self _ _)))
      · exact dictGet_filter_none _ _ _
          (dictGet_filter_none _ _ _ (dictGet_filter_self _ _))
    rw [hn]
    rfl
  · rw [dictContains_eq_isSome]
    have hn : dictGet (frameRemainder kvs) "members" = Option.none := by
      unfold frameRemainder dictPopD
      simp only
      split
      · exact dictGet_filter_none _ _ _
          (dictGet_filter_none _ _ _ (dictGet_filter_self _ _))
      · exact dictGet_filter_none _ _ _ (dictGet_filter_self _ _)
    rw [hn]
    rfl
  · rw [dictContains_eq_isSome]
    have hn : dictGet (frameRemainder kvs) "command" = Option.none := by
      unfold frameRemainder dictPopD
      simp only
      split
      · exact dictGet_filter_none _ _ _ (dictGet_filter_self _ _)
      · exact dictGet_filter_self _ _
    rw [hn]
    rfl
  · intro ht
    rw [dictContains_eq_isSome]
    have hn : dictGet (frameRemainder kvs) "from" = Option.none := by
      unfold frameRemainder dictPopD
      simp only
      rw [if_pos ht]
      exact dictGet_filter_self _ _
    rw [hn]
    rfl

/-- C4 witness: the amended statement applied to a frame with a truthy
`message` and a `from` key — there `from` IS removed before the remainder
rendering. -/
theorem claim_C4_witness :
    pyTruthy (dictGetD [("message", PyVal.dict [("text", PyVal.str "hi")]),
      ("from", PyVal.str "bob")] "message" (.bool false)) = true ∧
    dictContains (frameRemainder [("message", PyVal.dict [("text", PyVal.str "hi")]),
      ("from", PyVal.str "bob")]) "from" = false :=
  ⟨rfl, (claim_C4_amended [("message", PyVal.dict [("text", PyVal.str "hi")]),
    ("from", PyVal.str "bob")]).2.2.2 rfl⟩

/-! ## Dispatch lemmas -/

theorem folderStep_quiet (env : Env) (kw : Kwargs) :
    quiet (folderStep env kw).1 = true := by
  unfold folderStep
  cases kw.remote_folder with
  | none => rfl
  | some p =>
    cases h : env.getFolder p <;> simp [quiet, h, networkEffect]

theorem rootKeyStep_quiet (env : Env) (kw : Kwargs) :
    quiet (rootKeyStep env kw).1 = true := by
  unfold rootKeyStep
  cases kw.root_key with
  | none => rfl
  | some p =>
    cases h : env.getRecord p <;> simp [quiet, h, networkEffect]

theorem warnsAndStops_of_warn (env : Env) (params : Params) (kw : Kwargs)
    (w : String)
    (heq : execute env params kw =
      ((folderStep env kw).1 ++ (rootKeyStep env kw).1 ++ [Effect.warn w],
       params.ws_connections, Option.none)) :
    warnsAndStops env params kw := by
  unfold warnsAndStops
  rw [heq]
  refine ⟨?_, ?_, rfl, rfl⟩
  · simp [hasWarn, List.any_append, isWarnEffect]
  · have h1 := folderStep_quiet env kw
    have h2 := rootKeyStep_quiet env kw
    unfold quiet at h1 h2 ⊢
    rw [List.all_append, List.all_append, h1, h2]
    rfl

/-! ## Claim C7 -/

/-- C7: every precondition failure of the dispatch table — a missing root
key for `enterprise`/`user add`/`user check`/`user connect`, a missing
minion id for `minion`, a missing folder or root key for `minion add`, and
a missing live session for `minion cmd/exit/ping` and for
`user disconnect/list/receive` — emits a user-facing warning, performs no
token issuance, HTTP call, websocket traffic or record creation, leaves the
session registry unchanged, and raises nothing. -/
theorem claim_C7_preconditions (env : Env) (params : Params) (kw : Kwargs)
    (hv3 : params.v3Enabled = true) :
    (kw.command.headD "" = "enterprise" → (rootKeyStep env kw).2 = Option.none →
      warnsAndStops env params kw) ∧
    (kw.command.headD "" = "minion" → kw.minion_id = Option.none →
      warnsAndStops env params kw) ∧
    (kw.command.headD "" = "minion" → kw.minion_id ≠ Option.none →
      kw.command[1]? = some "add" → (folderStep env kw).2 = Option.none →
      warnsAndStops env params kw) ∧
    (kw.command.headD "" = "minion" → kw.minion_id ≠ Option.none →
      kw.command[1]? = some "add" → (folderStep env kw).2 ≠ Option.none →
      (rootKeyStep env kw).2 = Option.none → warnsAndStops env params kw) ∧
    (kw.command.headD "" = "minion" → kw.minion_id ≠ Option.none →
      (kw.command[1]? = some "cmd" ∨ kw.command[1]? = some "exit" ∨
        kw.command[1]? = some "ping") →
      wsLookup params.ws_connections (kw.user_id.getD params.user) = Option.none →
      warnsAndStops env params kw) ∧
    (kw.command.headD "" = "user" →
      (kw.command[1]? = some "disconnect" ∨ kw.command[1]? = some "list" ∨
        kw.command[1]? = some "receive") →
      wsLookup params.ws_connections (kw.user_id.getD params.user) = Option.none →
      warnsAndStops env params kw) ∧
    (kw.command.headD "" = "user" →
      (kw.command[1]? = some "add" ∨ kw.command[1]? = some "check" ∨
        kw.command[1]? = some "connect") →
      (rootKeyStep env kw).2 = Option.none → warnsAndStops env params kw) := by
  refine ⟨?_, ?_, ?_, ?_, ?_, ?_, ?_⟩
  · intro hobj hroot
    cases hcm : kw.command with
    | nil => rw [hcm] at hobj; simp at hobj
    | cons a rest =>
      rw [hcm] at hobj
      simp only [List.headD_cons] at hobj
      subst hobj
      apply warnsAndStops_of_warn env params kw "--root-key option required"
      simp [execute, hv3, hcm, hroot]
  · intro hobj hmin
    cases hcm : kw.command with
    | nil => rw [hcm] at hobj; simp at hobj
    | cons a rest =>
      rw [hcm] at hobj
      simp only [List.headD_cons] at hobj
      subst hobj
      apply warnsAndStops_of_warn env params kw "The --minion-id (-m) option is required"
      simp [execute, hv3, hcm, hmin]
  · intro hobj hmin ha hfold
    obtain ⟨m, hm⟩ := Option.ne_none_iff_exists'.mp hmin
    cases hcm : kw.command with
    | nil => rw [hcm] at hobj; simp at hobj
    | cons a rest =>
      rw [hcm] at hobj
      simp only [List.headD_cons] at hobj
      subst hobj
      rw [hcm] at ha
      simp only [List.getElem?_cons_succ] at ha
      apply warnsAndStops_of_warn env params kw "The --folder (-f) option is required"
      simp [execute, hv3, hcm, hm, ha, hfold]
  · intro hobj hmin ha hfoldne hroot
    obtain ⟨m, hm⟩ := Option.ne_none_iff_exists'.mp hmin
    obtain ⟨f, hf⟩ := Option.ne_none_iff_exists'.mp hfoldne
    cases hcm : kw.command with
    | nil => rw [hcm] at hobj; simp at hobj
    | cons a rest =>
      rw [hcm] at hobj
      simp only [List.headD_cons] at hobj
      subst hobj
      rw [hcm] at ha
      simp only [List.getElem?_cons_succ] at ha
      apply warnsAndStops_of_warn env params kw "--root-key option required"
      simp [execute, hv3, hcm, hm, ha, hf, hroot]
  · intro hobj hmin ha hws
    obtain ⟨m, hm⟩ := Option.ne_none_iff_exists'.mp hmin
    cases hcm : kw.command with
    | nil => rw [hcm] at hobj; simp at hobj
    | cons a rest =>
      rw [hcm] at hobj
      simp only [List.headD_cons] at hobj
      subst hobj
      rw [hcm] at ha
      simp only [List.getElem?_cons_succ] at ha
      apply warnsAndStops_of_warn env params kw
        ("Can\x27t find connection for " ++ kw.user_id.getD params.user)
      rcases ha with ha | ha | ha <;> simp [execute, hv3, hcm, hm, ha, hws]
  · intro hobj ha hws
    cases hcm : kw.command with
    | nil => rw [hcm] at hobj; simp at hobj
    | cons a rest =>
      rw [hcm] at hobj
      simp only [List.headD_cons] at hobj
      subst hobj
      rw [hcm] at ha
      simp only [List.getElem?_cons_succ] at ha
      apply warnsAndStops_of_warn env params kw
        ("Can\x27t find connection for " ++ kw.user_id.getD params.user)
      rcases ha with ha | ha | ha <;> simp [execute, hv3, hcm, ha, hws]
  · intro hobj ha hroot
    cases hcm : kw.command with
    | nil => rw [hcm] at hobj; simp at hobj
    | cons a rest =>
      rw [hcm] at hobj
      simp only [List.headD_cons] at hobj
      subst hobj
      rw [hcm] at ha
      simp only [List.getElem?_cons_succ] at ha
      apply warnsAndStops_of_warn env params kw "--root-key option required"
      rcases ha with ha | ha | ha <;> simp [execute, hv3, hcm, ha, hroot]

/-- C7 witness: the dispatch `minion cmd` without a `--minion-id` option,
on concrete inputs — a warning, no network or store effect, registry
unchanged. -/
theorem claim_C7_witness :
    (kwargsOf ["minion", "cmd"]).command.headD "" = "minion" ∧
    (kwargsOf ["minion", "cmd"]).minion_id = Option.none ∧
    warnsAndStops envEmpty paramsNoWs (kwargsOf ["minion", "cmd"]) :=
  ⟨rfl, rfl, (claim_C7_preconditions envEmpty paramsNoWs
    (kwargsOf ["minion", "cmd"]) rfl).2.1 rfl rfl⟩

/-! ## Claim C5 -/

/-- C5: a `user connect` for a login that already has a live session is
rejected: the trace is exactly the root-key log line, the token issuance
(which the code performs before consulting the registry), and the
already-connected warning — no `wsConnect`, no send, the registry mapping
(and hence the existing session object) unchanged.  At most one session per
login is kept. -/
theorem claim_C5_already_connected (env : Env) (params : Params) (kw : Kwargs)
    (rk : KeeperRecord) (p : String) (s : Nat)
    (out : PyVal × List (String × PyVal) × List (String × PyVal))
    (hv3 : params.v3Enabled = true)
    (hcmd : kw.command = ["user", "connect"])
    (hfold : kw.remote_folder = Option.none)
    (hpath : kw.root_key = some p)
    (hrec : env.getRecord p = some rk)
    (htok : get_auth_token rk (kw.user_id.getD params.user) ["user"]
      params.licenseEntId (some env.userPublicJwk) JWT_EXP_DELTA env.now = .ok out)
    (hws : wsLookup params.ws_connections (kw.user_id.getD params.user) = some s) :
    execute env params kw =
      ([.info ("Found root key " ++ rk.title),
        .tokenIssue (kw.user_id.getD params.user) ["user"],
        .warn ("User " ++ kw.user_id.getD params.user ++ " is already connected")],
       params.ws_connections, Option.none) := by
  simp [execute, hv3, hcmd, folderStep, rootKeyStep, hfold, hpath, hrec, htok, hws]

/-- C5 witness: `user connect` for `alice`, who already holds session `3`
in `paramsAlice` — rejected with the already-connected warning, registry
unchanged. -/
theorem claim_C5_witness :
    wsLookup paramsAlice.ws_connections "alice" = some 3 ∧
    execute env0 paramsAlice
      ⟨false, ["user", "connect"], Option.none, some "rk", Option.none,
       Option.none, 7200⟩ =
      ([.info "Found root key root", .tokenIssue "alice" ["user"],
        .warn "User alice is already connected"], [("alice", 3)], Option.none) :=
  ⟨rfl,
   claim_C5_already_connected env0 paramsAlice
     ⟨false, ["user", "connect"], Option.none, some "rk", Option.none,
      Option.none, 7200⟩
     fullRecord "rk" 3 _ rfl rfl rfl rfl rfl rfl rfl⟩

/-! ## Claim C8 -/

/-- C8: over an existing session, a minion command whose first token is the
exit directive (either `minion exit …` or `minion cmd exit …`) performs
exactly two response-drain cycles after the single send, and a ping command
performs exactly one. -/
theorem claim_C8_drains (env : Env) (params : Params) (kw : Kwargs) (m : String)
    (s : Nat) (tail : List String)
    (hv3 : params.v3Enabled = true)
    (hmin : kw.minion_id = some m)
    (hws : wsLookup params.ws_connections (kw.user_id.getD params.user) = some s) :
    (kw.command = "minion" :: "exit" :: tail →
      (execute env params kw).1 =
        (folderStep env kw).1 ++ (rootKeyStep env kw).1 ++
          [.wsSend (minionCmdPayload m ("exit" :: tail)), .wsDrain, .wsDrain]) ∧
    (kw.command = "minion" :: "cmd" :: "exit" :: tail →
      (execute env params kw).1 =
        (folderStep env kw).1 ++ (rootKeyStep env kw).1 ++
          [.wsSend (minionCmdPayload m ("exit" :: tail)), .wsDrain, .wsDrain]) ∧
    (kw.command = "minion" :: "ping" :: tail →
      (execute env params kw).1 =
        (folderStep env kw).1 ++ (rootKeyStep env kw).1 ++
          [.wsSend (minionCmdPayload m ("ping" :: tail)), .wsDrain]) := by
  refine ⟨?_, ?_, ?_⟩ <;> intro hcmd <;>
    simp [execute, hv3, hcmd, hmin, hws]

/-- C8 witness: `minion exit` and `minion ping` over the live session of
`paramsAlice` — two drains after the send for exit, one for ping. -/
theorem claim_C8_witness :
    (execute env0 paramsAlice
      ⟨false, ["minion", "exit"], Option.none, Option.none, Option.none,
       some "m1", 7200⟩).1 =
      [.wsSend (minionCmdPayload "m1" ["exit"]), .wsDrain, .wsDrain] ∧
    (execute env0 paramsAlice
      ⟨false, ["minion", "ping"], Option.none, Option.none, Option.none,
       some "m1", 7200⟩).1 =
      [.wsSend (minionCmdPayload "m1" ["ping"]), .wsDrain] :=
  ⟨by
    rw [(claim_C8_drains env0 paramsAlice
      ⟨false, ["minion", "exit"], Option.none, Option.none, Option.none,
       some "m1", 7200⟩ "m1" 3 [] rfl rfl rfl).1 rfl]
    rfl,
   by
    rw [(claim_C8_drains env0 paramsAlice
      ⟨false, ["minion", "ping"], Option.none, Option.none, Option.none,
       some "m1", 7200⟩ "m1" 3 [] rfl rfl rfl).2.2 rfl]
    rfl⟩

end Commander
